import Mathlib

/-!
Shallow embedding of the QRKODE-V2 page component
(`src/unnamed/part_000`, the template/logo variant of `src/pages/index.tsx`).

The React component keeps seven pieces of state
(`url`, `template`, `logoUrl`, `logoFile`, `localLogoDataUri`, `html`,
`copyStatus`).  Event handlers (`handleGenerate`, `handleFileChange`,
the logo-URL input `onChange`, `handleCopy`) are modelled as pure state
transformers; the external effects — the QR encoder
(`QRCode.toDataURL`), the remote logo fetch (`fetchLogoDataUri`), the
file reader, and the build-time default logo — are passed in as
oracle parameters.  JavaScript string truthiness (empty string is
falsy, `null` is falsy) is modelled explicitly.  `alert` calls are
collected in an output list.
-/

namespace QRKode

/-- The `copyStatus` state: `'idle' | 'copied'`. -/
inductive CopyStatus where
  | idle
  | copied
deriving DecidableEq, Repr

/-- The component state, one field per `useState` hook.
`logoFile` models the `File | null` value by the file's identity (its
contents as a string); `localLogoDataUri` is the data URI the
`FileReader` produced from it. -/
structure AppState where
  url : String
  template : String
  logoUrl : String
  logoFile : Option String
  localLogoDataUri : String
  html : String
  copyStatus : CopyStatus
deriving DecidableEq, Repr

/-- Initial state of the hooks: `useState('')`, `useState('Document')`, etc. -/
def initialState : AppState :=
  { url := "", template := "Document", logoUrl := "", logoFile := none,
    localLogoDataUri := "", html := "", copyStatus := CopyStatus.idle }

/-- The three `alert` messages the component can raise. -/
inductive AppAlert where
  | missingInput
  | logoFetchWarning
  | qrFailure
deriving DecidableEq, Repr

/-- One entry of `templateConfig`. -/
structure TplConfig where
  header : String
  cta : String
deriving DecidableEq, Repr

def documentConfig : TplConfig :=
  { header := "Your document is ready to review and sign",
    cta := "Scan the QR Code below to view or sign the shared document." }

def contractConfig : TplConfig :=
  { header := "Your contract is ready to review and sign",
    cta := "Scan the QR Code below to view or sign the contract." }

def invoiceConfig : TplConfig :=
  { header := "Your invoice is ready to view and pay",
    cta := "Scan the QR Code below to view or pay the invoice." }

def statementConfig : TplConfig :=
  { header := "Your statement is ready to view",
    cta := "Scan the QR Code below to view your statement." }

def paymentConfig : TplConfig :=
  { header := "Payment Notification: Your payment details are ready",
    cta := "Scan the QR Code below to review and confirm all invoices included in this payment." }

/-- Result of the JS property lookup `templateConfig[template]`: one of
the five own data properties, a member inherited from
`Object.prototype` (a function, or the prototype object itself for the
`__proto__` accessor — in every case a truthy value that is not a
config record), or `undefined`. -/
inductive JsLookup where
  | config (c : TplConfig)
  | inherited
  | undef
deriving DecidableEq, Repr

/-- The property names the `templateConfig` object literal inherits from
`Object.prototype`: for these keys the bracket lookup yields a truthy
inherited member instead of `undefined`. -/
def protoKeys : List String :=
  ["constructor", "hasOwnProperty", "isPrototypeOf", "propertyIsEnumerable",
   "toLocaleString", "toString", "valueOf", "__defineGetter__",
   "__defineSetter__", "__lookupGetter__", "__lookupSetter__", "__proto__"]

/-- The `templateConfig` object literal: bracket lookup finds one of the
five own entries, else walks the prototype chain (`Object.prototype`),
else yields `undefined`. -/
def templateConfig (t : String) : JsLookup :=
  if t = "Document" then JsLookup.config documentConfig
  else if t = "Contract" then JsLookup.config contractConfig
  else if t = "Invoice" then JsLookup.config invoiceConfig
  else if t = "Statement" then JsLookup.config statementConfig
  else if t = "Payment" then JsLookup.config paymentConfig
  else if t ∈ protoKeys then JsLookup.inherited
  else JsLookup.undef

/-- The header/cta texts the template literal renders when `config` is
an inherited `Object.prototype` member: `.header` and `.cta` on such a
value are `undefined`, which string interpolation renders as the text
`undefined`. -/
def inheritedConfig : TplConfig :=
  { header := "undefined", cta := "undefined" }

/-- `templateConfig[template] || templateConfig.Document`: the five own
entries and the inherited prototype members are truthy, so `||` keeps
them (projecting the rendered `.header`/`.cta` texts); only an
`undefined` lookup falls back to the Document entry. -/
def configFor (t : String) : TplConfig :=
  match templateConfig t with
  | JsLookup.config c => c
  | JsLookup.inherited => inheritedConfig
  | JsLookup.undef => documentConfig

/-- JS truthiness of a `string | null` value: `null` and `''` are falsy. -/
def strTruthy : Option String → Bool
  | none => false
  | some s => s != ""

/-! ### The email template, split at its interpolation points

`buildEmailHtml` is a template literal; we represent it as a list of
segments so that "which pieces are substituted values" and "which
segments are inline images" are visible, and render it by plain
concatenation, which is exactly what a template literal does. -/

/-- A piece of the rendered document: a template literal chunk, a
substituted text value (header, call-to-action, year), or an embedded
image given by its `src` value. -/
inductive Seg where
  | lit (s : String)
  | headerText (s : String)
  | ctaText (s : String)
  | yearText (s : String)
  | qrImg (src : String)
  | logoImg (src : String)
deriving DecidableEq, Repr

def renderSeg : Seg → String
  | Seg.lit s => s
  | Seg.headerText s => s
  | Seg.ctaText s => s
  | Seg.yearText s => s
  | Seg.qrImg src => src
  | Seg.logoImg src => src

def render (segs : List Seg) : String :=
  segs.foldr (fun sg acc => renderSeg sg ++ acc) ""

def tplSeg0 : String :=
  "<!DOCTYPE html>\n<html lang=\"en\">\n<head>\n  <meta charset=\"UTF-8\">\n  <title>"

def tplSeg1 : String :=
  "</title>\n</head>\n<body style=\"margin:0;padding:0;background-color:#f4f4f4;\">\n  <center style=\"width:100%;background-color:#f4f4f4;\">\n    <table role=\"presentation\" border=\"0\" cellpadding=\"0\" cellspacing=\"0\" style=\"width:600px;background-color:#ffffff;box-shadow:0 2px 8px rgba(0,0,0,0.1);overflow:hidden;margin:20px auto;\">\n      "

def tplSeg2 : String :=
  "\n      <tr>\n        <td align=\"center\" style=\"padding:30px;background-color:#005eb8;color:#ffffff;font-family:Arial,sans-serif;\">\n          <h1 style=\"margin:0;font-size:24px;\">"

def tplSeg3 : String :=
  "</h1>\n        </td>\n      </tr>\n      <tr>\n        <td align=\"center\" style=\"padding:30px;\">\n          <img src=\""

def tplSeg4 : String :=
  "\" alt=\"QR Code\" width=\"200\" style=\"display:block;border:1px solid #ddd;border-radius:4px;\">\n          <p style=\"font-family:Arial,sans-serif;font-size:20px;border-radius:4px;display:inline-block;margin:15px 0 0;\">\n            "

def tplSeg5 : String :=
  "\n          </p>\n        </td>\n      </tr>\n      <tr>\n        <td style=\"padding:20px;font-family:Arial,sans-serif;font-size:14px;color:#333;line-height:1.5;\">\n          If you have any questions, reply to this email or contact our support team.\n        </td>\n      </tr>\n      <tr>\n        <td align=\"center\" style=\"padding:20px;font-family:Arial,sans-serif;font-size:12px;color:#777;\">\n          &copy; "

def tplSeg6 : String :=
  " Company. All rights reserved.\n        </td>\n      </tr>\n    </table>\n  </center>\n</body>\n</html>"

def logoRowPre : String :=
  "<tr><td align=\"center\" style=\"padding:20px 0;\"><img src=\""

def logoRowPost : String :=
  "\" alt=\"Company Logo\" width=\"120\" style=\"display:block;margin-bottom:10px;\"></td></tr>"

/-- The conditional logo row
`${logoToUse ? `<tr>...<img src="${logoToUse}"...></tr>` : ''}`. -/
def logoRowSegs (logoToUse : Option String) : List Seg :=
  if strTruthy logoToUse then
    [Seg.lit logoRowPre, Seg.logoImg (logoToUse.getD ""), Seg.lit logoRowPost]
  else []

/-- The whole template literal of `buildEmailHtml`, as segments. -/
def emailSegments (template qrDataUri : String) (logoToUse : Option String)
    (year : Nat) : List Seg :=
  let config := configFor template
  [Seg.lit tplSeg0, Seg.headerText config.header, Seg.lit tplSeg1]
  ++ logoRowSegs logoToUse
  ++ [Seg.lit tplSeg2, Seg.headerText config.header, Seg.lit tplSeg3,
      Seg.qrImg qrDataUri, Seg.lit tplSeg4, Seg.ctaText config.cta,
      Seg.lit tplSeg5, Seg.yearText (Nat.repr year), Seg.lit tplSeg6]

/-- `buildEmailHtml(qrDataUri, logoToUse)`; `template` is the state the
closure reads and `year` is `new Date().getFullYear()`. -/
def buildEmailHtml (template qrDataUri : String) (logoToUse : Option String)
    (year : Nat) : String :=
  render (emailSegments template qrDataUri logoToUse year)

/-! ### Generation -/

/-- The options record passed to `QRCode.toDataURL`. -/
structure QrOptions where
  width : Nat
  margin : Nat
  dark : String
  light : String
deriving DecidableEq, Repr

/-- `{ width: 200, margin: 2, color: { dark: '#000', light: '#fff' } }`. -/
def qrOptions : QrOptions :=
  { width := 200, margin := 2, dark := "#000", light := "#fff" }

/-- Lines 117–126 of `handleGenerate`: compute `customLogoDataUri`
(`none` = JS `null`), collecting the fetch-failure alert.  The fetch
oracle returns `some dataUri` when `fetchLogoDataUri` resolves and
`none` when it rejects (the inner `catch`). -/
def resolveCustomLogo (fetchLogo : String → Option String) (s : AppState) :
    Option String × List AppAlert :=
  if s.localLogoDataUri != "" then (some s.localLogoDataUri, [])
  else if s.logoUrl != "" then
    match fetchLogo s.logoUrl with
    | some d => (some d, [])
    | none => (none, [AppAlert.logoFetchWarning])
  else (none, [])

/-- Line 127: `customLogoDataUri || (template === 'Document' ? defaultLogoDataUri : null)`. -/
def resolvedLogo (defaultLogoDataUri : String) (fetchLogo : String → Option String)
    (s : AppState) : Option String :=
  let customLogo := (resolveCustomLogo fetchLogo s).1
  if strTruthy customLogo then customLogo
  else if s.template = "Document" then some defaultLogoDataUri else none

/-- The QR image a generation attempt requests: `QRCode.toDataURL(url, qrOptions)`.
The encoder oracle returns `none` when encoding rejects. -/
def qrPart (qrEncode : String → QrOptions → Option String) (s : AppState) :
    Option String :=
  qrEncode s.url qrOptions

/-- `handleGenerate`: empty URL short-circuits with an alert; otherwise
resolve the logo (fetch failure degrades with a warning), encode the QR
code, and on success replace `html` and reset `copyStatus`; a QR
encoding failure raises an alert and changes nothing. -/
def handleGenerate (defaultLogoDataUri : String)
    (fetchLogo : String → Option String)
    (qrEncode : String → QrOptions → Option String) (year : Nat)
    (s : AppState) : AppState × List AppAlert :=
  if s.url = "" then (s, [AppAlert.missingInput])
  else
    let resolved := resolveCustomLogo fetchLogo s
    let logoToUse := if strTruthy resolved.1 then resolved.1
      else if s.template = "Document" then some defaultLogoDataUri else none
    match qrEncode s.url qrOptions with
    | none => (s, resolved.2 ++ [AppAlert.qrFailure])
    | some qrDataUri =>
        ({ s with html := buildEmailHtml s.template qrDataUri logoToUse year,
                  copyStatus := CopyStatus.idle },
         resolved.2)

/-! ### The other event handlers -/

/-- `handleFileChange`: `e.target.files?.[0]`; if absent, return without
any update; otherwise set the file, clear the URL source, and store the
`FileReader` result.  `readAsDataURL` is the oracle `readFile`. -/
def handleFileChange (files : List String) (readFile : String → String)
    (s : AppState) : AppState :=
  match files.head? with
  | none => s
  | some file =>
      { s with logoFile := some file, logoUrl := "",
               localLogoDataUri := readFile file }

/-- The logo-URL text input `onChange`: set `logoUrl`, clear `logoFile`
and `localLogoDataUri`. -/
def handleLogoUrlChange (v : String) (s : AppState) : AppState :=
  { s with logoUrl := v, logoFile := none, localLogoDataUri := "" }

/-- `handleCopy` success path: `navigator.clipboard.writeText(html)`
places `html` on the clipboard (first component), then sets
`copyStatus` to `'copied'`. -/
def handleCopy (s : AppState) : String × AppState :=
  (s.html, { s with copyStatus := CopyStatus.copied })

/-- The `setTimeout` callback restoring `copyStatus` to `'idle'`. -/
def copyTimeout (s : AppState) : AppState :=
  { s with copyStatus := CopyStatus.idle }

/-! ### The event system and reachability -/

/-- The discrete user/system events the component reacts to. -/
inductive UiEvent where
  | setUrlEvent (v : String)
  | setTemplateEvent (v : String)
  | logoUrlInputEvent (v : String)
  | fileChangeEvent (files : List String) (readFile : String → String)
  | generateEvent (defaultLogoDataUri : String)
      (fetchLogo : String → Option String)
      (qrEncode : String → QrOptions → Option String) (year : Nat)
  | copySuccessEvent
  | copyTimeoutEvent

/-- One step of the UI state machine. -/
def step (s : AppState) : UiEvent → AppState
  | UiEvent.setUrlEvent v => { s with url := v }
  | UiEvent.setTemplateEvent v => { s with template := v }
  | UiEvent.logoUrlInputEvent v => handleLogoUrlChange v s
  | UiEvent.fileChangeEvent files readFile => handleFileChange files readFile s
  | UiEvent.generateEvent d f q y => (handleGenerate d f q y s).1
  | UiEvent.copySuccessEvent => (handleCopy s).2
  | UiEvent.copyTimeoutEvent => copyTimeout s

/-- States reachable from the initial hook values by UI events. -/
inductive Reachable : AppState → Prop where
  | init : Reachable initialState
  | next {s : AppState} (e : UiEvent) : Reachable s → Reachable (step s e)

/-- The local-file logo source is active. -/
def localLogoActive (s : AppState) : Bool :=
  s.logoFile.isSome || s.localLogoDataUri != ""

/-- The remote-URL logo source is active. -/
def remoteLogoActive (s : AppState) : Bool :=
  s.logoUrl != ""

/-- At most one logo source is active. -/
def logoSourcesExclusive (s : AppState) : Bool :=
  !(localLogoActive s && remoteLogoActive s)

/-- Blank out the header and call-to-action text segments, keeping
everything else (literal chunks, logo block, QR image, year) intact:
two documents are "equal except for header/call-to-action text" iff
their stripped segment lists are equal. -/
def stripHeaderCta (segs : List Seg) : List Seg :=
  segs.map fun sg =>
    match sg with
    | Seg.headerText _ => Seg.headerText ""
    | Seg.ctaText _ => Seg.ctaText ""
    | other => other

/-- `true` iff the segment is the embedded QR image. -/
def segIsQrImg : Seg → Bool
  | Seg.qrImg _ => true
  | _ => false

/-- The `src` value of an embedded image segment (`none` for non-images). -/
def segImageSrc : Seg → Option String
  | Seg.qrImg src => some src
  | Seg.logoImg src => some src
  | _ => none

/-- The string begins with `data:`, i.e. it is inline embedded image
data rather than an external reference. -/
def isDataUriSrc (s : String) : Bool :=
  s.data.take 5 == ("data:".data)

/-- No `$` character occurs in the string; in particular no unresolved
`$`-brace template placeholder can occur in it. -/
def noDollar (s : String) : Bool :=
  s.data.all (fun c => c != '$')

/-! ### Concrete example states used by witnesses and counterexamples -/

/-- A state with only a target URL entered. -/
def exUrlState : AppState := { initialState with url := "https://a.example" }

/-- A state with a URL, the Contract template and a remote logo URL. -/
def exContractState : AppState :=
  { exUrlState with template := "Contract", logoUrl := "https://logo.example/x.png" }

/-- A state with a URL and a remote logo URL (Document template). -/
def exRemoteLogoState : AppState :=
  { exUrlState with logoUrl := "https://logo.example/x.png" }

/-! ### Helper lemmas -/

/-- A generation attempt never touches the three logo-source fields,
nor the url or template fields. -/
theorem handleGenerate_frame (d : String) (f : String → Option String)
    (q : String → QrOptions → Option String) (y : Nat) (s : AppState) :
    (handleGenerate d f q y s).1.url = s.url
    ∧ (handleGenerate d f q y s).1.template = s.template
    ∧ (handleGenerate d f q y s).1.logoUrl = s.logoUrl
    ∧ (handleGenerate d f q y s).1.logoFile = s.logoFile
    ∧ (handleGenerate d f q y s).1.localLogoDataUri = s.localLogoDataUri := by
  unfold handleGenerate
  split
  · exact ⟨rfl, rfl, rfl, rfl, rfl⟩
  · dsimp only
    split <;> exact ⟨rfl, rfl, rfl, rfl, rfl⟩

/-- Stripping header/call-to-action text makes `emailSegments`
independent of the template kind (for fixed QR, logo and year). -/
theorem stripHeaderCta_emailSegments (t1 t2 qr : String) (lo : Option String)
    (y : Nat) :
    stripHeaderCta (emailSegments t1 qr lo y)
      = stripHeaderCta (emailSegments t2 qr lo y) := by
  unfold emailSegments stripHeaderCta
  simp

/-- On a successful QR encoding, `handleGenerate` sets `html` to the
built document (with the resolved logo) and resets `copyStatus`, and
raises no fatal alert. -/
theorem handleGenerate_success (d : String) (f : String → Option String)
    (q : String → QrOptions → Option String) (y : Nat) (s : AppState)
    (qr : String) (hu : ¬ s.url = "") (hq : q s.url qrOptions = some qr) :
    handleGenerate d f q y s
      = ({ s with html := buildEmailHtml s.template qr (resolvedLogo d f s) y,
                  copyStatus := CopyStatus.idle },
         (resolveCustomLogo f s).2) := by
  unfold handleGenerate
  rw [if_neg hu]
  dsimp only
  rw [hq]
  rfl

/-! ### Claim C1 -/

/-- C1: if QR encoding of the target URL fails, the attempt is fatal:
the whole component state (in particular the displayed `html`) is left
unchanged, the user-visible `qrFailure` alert is raised, and no
document (not even an incomplete one) is produced. -/
theorem c1_qr_failure_preserves_state (d : String) (f : String → Option String)
    (q : String → QrOptions → Option String) (y : Nat) (s : AppState)
    (hu : ¬ s.url = "") (hq : q s.url qrOptions = none) :
    (handleGenerate d f q y s).1 = s
    ∧ AppAlert.qrFailure ∈ (handleGenerate d f q y s).2 := by
  unfold handleGenerate
  rw [if_neg hu]
  dsimp only
  rw [hq]
  exact ⟨rfl, List.mem_append_right _ (List.mem_singleton.mpr rfl)⟩

/-- Witness for C1 at a concrete state and an always-failing encoder. -/
theorem c1_witness :
    (handleGenerate "data:image/png;base64,D" (fun _ => none) (fun _ _ => none)
        2026 { initialState with url := "https://a.example" }).1
      = { initialState with url := "https://a.example" }
    ∧ AppAlert.qrFailure ∈
      (handleGenerate "data:image/png;base64,D" (fun _ => none) (fun _ _ => none)
        2026 { initialState with url := "https://a.example" }).2 :=
  c1_qr_failure_preserves_state _ _ _ _ _ (by decide) rfl

/-! ### Claim C2 -/

/-- C2: with an empty target URL, generation is rejected before any other
work: the `missingInput` prompt is the only signal and the state —
`html`, `copyStatus`, and all logo fields — comes back exactly as it was. -/
theorem c2_empty_url_rejected (d : String) (f : String → Option String)
    (q : String → QrOptions → Option String) (y : Nat) (s : AppState)
    (h : s.url = "") :
    handleGenerate d f q y s = (s, [AppAlert.missingInput]) := by
  unfold handleGenerate
  rw [if_pos h]

/-- Witness for C2 at the initial state. -/
theorem c2_witness :
    handleGenerate "data:image/png;base64,D" (fun _ => some "data:l")
        (fun _ _ => some "data:q") 2026 initialState
      = (initialState, [AppAlert.missingInput]) :=
  c2_empty_url_rejected _ _ _ _ _ rfl

/-! ### Claim C8 -/

/-- C8: on copy success, the string placed on the clipboard is exactly the
previously rendered `html` state, character for character; the only state
change is `copyStatus` becoming `copied`. -/
theorem c8_copy_exact_html (s : AppState) :
    (handleCopy s).1 = s.html
    ∧ (handleCopy s).2 = { s with copyStatus := CopyStatus.copied } :=
  ⟨rfl, rfl⟩

/-! ### Claim C9 (corrected) -/

/-- C9 counterexample: at the unknown key `constructor` the bracket
lookup finds the truthy member inherited from `Object.prototype`, the
`||` fallback does not fire, and the header/cta render as the text
`undefined`, not the Document texts. -/
theorem c9_counterexample :
    templateConfig "constructor" = JsLookup.inherited
    ∧ configFor "constructor" = inheritedConfig
    ∧ ¬ configFor "constructor" = documentConfig :=
  ⟨rfl, rfl, by decide⟩

/-- C9 amended: for a template string that is none of the five known
kinds, rendering is total, in two regimes.  If the key is not an
`Object.prototype` property name, the lookup is `undefined`,
`buildEmailHtml` silently falls back to the Document header and
call-to-action text and renders exactly like `"Document"`.  If it is an
inherited property name, the truthy inherited member survives `||`, the
header and call-to-action render as the text `undefined`, and the
document is otherwise the same shell (segment lists equal after
blanking header/cta text). -/
theorem c9_unknown_template_total (t : String)
    (h1 : ¬ t = "Document") (h2 : ¬ t = "Contract") (h3 : ¬ t = "Invoice")
    (h4 : ¬ t = "Statement") (h5 : ¬ t = "Payment") :
    (¬ t ∈ protoKeys →
      configFor t = documentConfig
      ∧ ∀ (qr : String) (logoToUse : Option String) (y : Nat),
          buildEmailHtml t qr logoToUse y = buildEmailHtml "Document" qr logoToUse y)
    ∧ (t ∈ protoKeys →
      configFor t = inheritedConfig
      ∧ ∀ (qr : String) (logoToUse : Option String) (y : Nat),
          stripHeaderCta (emailSegments t qr logoToUse y)
            = stripHeaderCta (emailSegments "Document" qr logoToUse y)) := by
  constructor
  · intro h6
    have hc : configFor t = documentConfig := by
      unfold configFor templateConfig
      rw [if_neg h1, if_neg h2, if_neg h3, if_neg h4, if_neg h5, if_neg h6]
    refine ⟨hc, fun qr logoToUse y => ?_⟩
    unfold buildEmailHtml emailSegments
    rw [hc]
    rfl
  · intro h6
    have hc : configFor t = inheritedConfig := by
      unfold configFor templateConfig
      rw [if_neg h1, if_neg h2, if_neg h3, if_neg h4, if_neg h5, if_pos h6]
    exact ⟨hc, fun qr logoToUse y =>
      stripHeaderCta_emailSegments t "Document" qr logoToUse y⟩

/-- Witness for C9 (amended) at the unknown, non-inherited key
`"Receipt"`. -/
theorem c9_witness :
    configFor "Receipt" = documentConfig
    ∧ ∀ (qr : String) (logoToUse : Option String) (y : Nat),
        buildEmailHtml "Receipt" qr logoToUse y
          = buildEmailHtml "Document" qr logoToUse y :=
  (c9_unknown_template_total "Receipt" (by decide) (by decide) (by decide)
    (by decide) (by decide)).1 (by decide)

/-! ### Claim C10 -/

/-- C10: a file-selection change event with an empty file list returns
immediately: every field of the state is unchanged. -/
theorem c10_empty_file_list_noop (files : List String)
    (readFile : String → String) (s : AppState) (h : files = []) :
    handleFileChange files readFile s = s := by
  subst h
  rfl

/-- Witness for C10. -/
theorem c10_witness :
    handleFileChange [] (fun f => "data:" ++ f)
        { initialState with url := "https://a.example", html := "x" }
      = { initialState with url := "https://a.example", html := "x" } :=
  c10_empty_file_list_noop _ _ _ rfl

/-! ### Claim C4 -/

/-- Every UI event preserves mutual exclusion of the logo sources. -/
theorem step_preserves_exclusive (s : AppState) (e : UiEvent)
    (h : logoSourcesExclusive s = true) :
    logoSourcesExclusive (step s e) = true := by
  cases e with
  | setUrlEvent v =>
      simpa [step, logoSourcesExclusive, localLogoActive, remoteLogoActive]
        using h
  | setTemplateEvent v =>
      simpa [step, logoSourcesExclusive, localLogoActive, remoteLogoActive]
        using h
  | logoUrlInputEvent v =>
      simp [step, handleLogoUrlChange, logoSourcesExclusive, localLogoActive]
  | fileChangeEvent files readFile =>
      cases files with
      | nil => simpa [step, handleFileChange] using h
      | cons file rest =>
          simp [step, handleFileChange, logoSourcesExclusive, localLogoActive,
            remoteLogoActive]
  | generateEvent d f q y =>
      have hf := handleGenerate_frame d f q y s
      simp only [step, logoSourcesExclusive, localLogoActive, remoteLogoActive,
        hf.2.2.1, hf.2.2.2.1, hf.2.2.2.2]
      simpa [logoSourcesExclusive, localLogoActive, remoteLogoActive] using h
  | copySuccessEvent =>
      simpa [step, handleCopy, logoSourcesExclusive, localLogoActive,
        remoteLogoActive] using h
  | copyTimeoutEvent =>
      simpa [step, copyTimeout, logoSourcesExclusive, localLogoActive,
        remoteLogoActive] using h

/-- C4: at every reachable UI state at most one logo source is active;
selecting a local file clears the remote-URL source, entering a remote
URL clears the local-file source, and selecting a local file and then a
non-empty remote URL leaves exactly the remote-URL path active. -/
theorem c4_logo_source_exclusion :
    (∀ s : AppState, Reachable s → logoSourcesExclusive s = true)
    ∧ (∀ (file : String) (readFile : String → String) (s : AppState),
        remoteLogoActive (handleFileChange [file] readFile s) = false)
    ∧ (∀ (v : String) (s : AppState),
        localLogoActive (handleLogoUrlChange v s) = false)
    ∧ (∀ (file : String) (readFile : String → String) (v : String)
        (s : AppState), ¬ v = "" →
        remoteLogoActive
            (handleLogoUrlChange v (handleFileChange [file] readFile s)) = true
        ∧ localLogoActive
            (handleLogoUrlChange v (handleFileChange [file] readFile s)) = false) := by
  refine ⟨fun s h => ?_, fun file readFile s => ?_, fun v s => ?_,
    fun file readFile v s hv => ⟨?_, ?_⟩⟩
  · induction h with
    | init => rfl
    | next e _ ih => exact step_preserves_exclusive _ e ih
  · simp [handleFileChange, remoteLogoActive]
  · simp [handleLogoUrlChange, localLogoActive]
  · simp [handleLogoUrlChange, handleFileChange, remoteLogoActive, hv]
  · simp [handleLogoUrlChange, handleFileChange, localLogoActive]

/-- Witness for C4: file selection followed by a concrete remote URL. -/
theorem c4_witness :
    remoteLogoActive (handleLogoUrlChange "https://logo.example/l.png"
        (handleFileChange ["filebytes"] (fun f => "data:" ++ f) initialState)) = true
    ∧ localLogoActive (handleLogoUrlChange "https://logo.example/l.png"
        (handleFileChange ["filebytes"] (fun f => "data:" ++ f) initialState)) = false :=
  c4_logo_source_exclusion.2.2.2 "filebytes" (fun f => "data:" ++ f)
    "https://logo.example/l.png" initialState (by decide)

/-! ### Claim C7 -/

/-- C7: QR encoding is always invoked with the fixed options (width 200,
margin 2, dark `#000`, light `#fff`), so the requested QR image depends
only on the target URL: two generation attempts with the same `url`
request the same image, and on success that image is the one embedded in
the rendered document. -/
theorem c7_fixed_options_deterministic (q : String → QrOptions → Option String)
    (s s' : AppState) (h : s.url = s'.url) :
    (qrOptions.width = 200 ∧ qrOptions.margin = 2
      ∧ qrOptions.dark = "#000" ∧ qrOptions.light = "#fff")
    ∧ qrPart q s = qrPart q s'
    ∧ ∀ (d : String) (f : String → Option String) (y : Nat) (qr : String),
        ¬ s.url = "" → qrPart q s = some qr →
        (handleGenerate d f q y s).1.html
          = buildEmailHtml s.template qr (resolvedLogo d f s) y := by
  refine ⟨⟨rfl, rfl, rfl, rfl⟩, by unfold qrPart; rw [h], fun d f y qr hu hq => ?_⟩
  rw [handleGenerate_success d f q y s qr hu hq]

/-- Witness for C7: two states sharing a URL but differing in template
and logo inputs, and a concrete encoder. -/
theorem c7_witness :
    (qrOptions.width = 200 ∧ qrOptions.margin = 2
      ∧ qrOptions.dark = "#000" ∧ qrOptions.light = "#fff")
    ∧ qrPart (fun u _ => some ("data:image/png;base64," ++ u))
        { initialState with url := "https://a.example" }
      = qrPart (fun u _ => some ("data:image/png;base64," ++ u))
        exContractState
    ∧ (handleGenerate "data:image/png;base64,D" (fun _ => some "data:l")
          (fun u _ => some ("data:image/png;base64," ++ u)) 2026
          { initialState with url := "https://a.example" }).1.html
      = buildEmailHtml "Document" "data:image/png;base64,https://a.example"
          (resolvedLogo "data:image/png;base64,D" (fun _ => some "data:l")
            { initialState with url := "https://a.example" }) 2026 := by
  have hc := c7_fixed_options_deterministic
    (fun u _ => some ("data:image/png;base64," ++ u))
    { initialState with url := "https://a.example" }
    exContractState rfl
  exact ⟨hc.1, hc.2.1,
    hc.2.2 "data:image/png;base64,D" (fun _ => some "data:l") 2026
      "data:image/png;base64,https://a.example" (by decide) rfl⟩

/-! ### Claim C3 (corrected) -/

/-- C3 counterexample: with the Document template, a supplied remote
logo URL and a failing fetch, the warning is raised but the resolved
logo is the built-in default, not none — the claim's "falls back to
none on fetch failure" is false for the Document variant. -/
theorem c3_counterexample :
    (resolveCustomLogo (fun _ => none)
        exRemoteLogoState).2
      = [AppAlert.logoFetchWarning]
    ∧ resolvedLogo "data:image/png;base64,D" (fun _ => none)
        exRemoteLogoState
      = some "data:image/png;base64,D"
    ∧ ¬ resolvedLogo "data:image/png;base64,D" (fun _ => none)
        exRemoteLogoState
      = none := by
  refine ⟨rfl, rfl, fun h => ?_⟩
  exact Option.noConfusion
    ((rfl : resolvedLogo "data:image/png;base64,D" (fun _ => none)
        exRemoteLogoState = some "data:image/png;base64,D").symm.trans h)

/-- C3 amended: local image first; else a given remote URL is fetched and
a truthy result used; on fetch failure a warning is raised and resolution
falls back as if no custom logo was supplied (the built-in default for
the Document variant, none otherwise) while the render flow continues
and still produces the document; with no custom source, the default is
used exactly for the Document variant. -/
theorem c3_logo_precedence (d : String) (f : String → Option String)
    (q : String → QrOptions → Option String) (y : Nat) (s : AppState)
    (qr : String) (hu : ¬ s.url = "") (hq : q s.url qrOptions = some qr) :
    (¬ s.localLogoDataUri = "" → resolvedLogo d f s = some s.localLogoDataUri)
    ∧ (s.localLogoDataUri = "" → ¬ s.logoUrl = "" →
        ∀ l, f s.logoUrl = some l → ¬ l = "" →
        resolvedLogo d f s = some l ∧ (resolveCustomLogo f s).2 = [])
    ∧ (s.localLogoDataUri = "" → ¬ s.logoUrl = "" → f s.logoUrl = none →
        (resolveCustomLogo f s).2 = [AppAlert.logoFetchWarning]
        ∧ resolvedLogo d f s = (if s.template = "Document" then some d else none)
        ∧ (handleGenerate d f q y s).1.html
            = buildEmailHtml s.template qr (resolvedLogo d f s) y
        ∧ (handleGenerate d f q y s).2 = [AppAlert.logoFetchWarning])
    ∧ (s.localLogoDataUri = "" → s.logoUrl = "" →
        resolvedLogo d f s = (if s.template = "Document" then some d else none)
        ∧ (resolveCustomLogo f s).2 = []) := by
  refine ⟨fun hl => ?_, fun hl hr l hfet hl0 => ?_, fun hl hr hfet => ?_,
    fun hl hr => ?_⟩
  · simp [resolvedLogo, resolveCustomLogo, strTruthy, hl]
  · constructor
    · simp [resolvedLogo, resolveCustomLogo, strTruthy, hl, hr, hfet, hl0]
    · simp [resolveCustomLogo, hl, hr, hfet]
  · have halerts : (resolveCustomLogo f s).2 = [AppAlert.logoFetchWarning] := by
      simp [resolveCustomLogo, hl, hr, hfet]
    have hres : resolvedLogo d f s
        = (if s.template = "Document" then some d else none) := by
      simp [resolvedLogo, resolveCustomLogo, strTruthy, hl, hr, hfet]
    refine ⟨halerts, hres, ?_, ?_⟩
    · rw [handleGenerate_success d f q y s qr hu hq]
    · rw [handleGenerate_success d f q y s qr hu hq]
      exact halerts
  · constructor
    · simp [resolvedLogo, resolveCustomLogo, strTruthy, hl, hr]
    · simp [resolveCustomLogo, hl, hr]

/-- Witness for C3 (amended), in the fetch-failure scenario with the
Document template. -/
theorem c3_witness :
    (resolveCustomLogo (fun _ => none)
        exRemoteLogoState).2
      = [AppAlert.logoFetchWarning]
    ∧ resolvedLogo "data:image/png;base64,D" (fun _ => none)
        exRemoteLogoState
      = (if (exRemoteLogoState : AppState).template
            = "Document"
         then some "data:image/png;base64,D" else none)
    ∧ (handleGenerate "data:image/png;base64,D" (fun _ => none)
          (fun _ _ => some "data:image/png;base64,Q") 2026
          exRemoteLogoState).1.html
      = buildEmailHtml "Document" "data:image/png;base64,Q"
          (resolvedLogo "data:image/png;base64,D" (fun _ => none)
            exRemoteLogoState) 2026
    ∧ (handleGenerate "data:image/png;base64,D" (fun _ => none)
          (fun _ _ => some "data:image/png;base64,Q") 2026
          exRemoteLogoState).2
      = [AppAlert.logoFetchWarning] :=
  (c3_logo_precedence "data:image/png;base64,D" (fun _ => none)
      (fun _ _ => some "data:image/png;base64,Q") 2026
      exRemoteLogoState
      "data:image/png;base64,Q" (by decide) rfl).2.2.1
    rfl (by decide) rfl

/-! ### Claim C5 (corrected) -/

/-- With a truthy custom logo, the resolved logo does not depend on the
template kind. -/
theorem resolvedLogo_template_congr (d : String) (f : String → Option String)
    (s : AppState) (t2 : String)
    (hl : strTruthy (resolveCustomLogo f s).1 = true) :
    resolvedLogo d f { s with template := t2 } = resolvedLogo d f s := by
  have hres : resolveCustomLogo f { s with template := t2 }
      = resolveCustomLogo f s := rfl
  simp only [resolvedLogo, hres, hl, if_true]

/-- C5 counterexample: same URL, same (absent) logo inputs, templates
`Document` vs `Contract`: the two generated documents differ in the
logo block (present with the default logo only for `Document`), not
merely in header/call-to-action text — the claim as stated is false. -/
theorem c5_counterexample :
    (handleGenerate "data:image/png;base64,D" (fun _ => none)
        (fun _ _ => some "data:image/png;base64,Q") 2026 exUrlState).1.html
      = render (emailSegments "Document" "data:image/png;base64,Q"
          (some "data:image/png;base64,D") 2026)
    ∧ (handleGenerate "data:image/png;base64,D" (fun _ => none)
        (fun _ _ => some "data:image/png;base64,Q") 2026
        { exUrlState with template := "Contract" }).1.html
      = render (emailSegments "Contract" "data:image/png;base64,Q" none 2026)
    ∧ ¬ stripHeaderCta (emailSegments "Document" "data:image/png;base64,Q"
          (some "data:image/png;base64,D") 2026)
        = stripHeaderCta (emailSegments "Contract" "data:image/png;base64,Q"
          none 2026) := by
  refine ⟨rfl, rfl, fun h => ?_⟩
  exact absurd (congrArg List.length h) (by decide)

/-- C5 amended: re-generating with a different template kind always
requests the same QR image for the same URL; and provided a custom logo
is active (local image or truthy fetched remote logo), both rendered
documents are built from the same QR image and the same logo, and their
segment lists agree once header and call-to-action text are blanked —
only that text differs.  (Without a custom logo the built-in default
logo block is present exactly for the Document variant, so switching to
or from Document also changes the logo block.) -/
theorem c5_template_change_frame (d : String) (f : String → Option String)
    (q : String → QrOptions → Option String) (y : Nat) (s : AppState)
    (t2 : String) (qr : String) (hu : ¬ s.url = "")
    (hq : q s.url qrOptions = some qr)
    (hl : strTruthy (resolveCustomLogo f s).1 = true) :
    qrPart q { s with template := t2 } = qrPart q s
    ∧ (handleGenerate d f q y { s with template := t2 }).1.html
        = render (emailSegments t2 qr (resolvedLogo d f s) y)
    ∧ (handleGenerate d f q y s).1.html
        = render (emailSegments s.template qr (resolvedLogo d f s) y)
    ∧ stripHeaderCta (emailSegments t2 qr (resolvedLogo d f s) y)
        = stripHeaderCta (emailSegments s.template qr (resolvedLogo d f s) y) := by
  refine ⟨rfl, ?_, ?_, stripHeaderCta_emailSegments t2 s.template qr _ y⟩
  · rw [handleGenerate_success d f q y { s with template := t2 } qr hu hq,
      resolvedLogo_template_congr d f s t2 hl]
    rfl
  · rw [handleGenerate_success d f q y s qr hu hq]
    rfl

/-- Witness for C5 (amended) with a local logo active, templates
Document vs Invoice. -/
theorem c5_witness :
    qrPart (fun _ _ => some "data:image/png;base64,Q")
        { { exUrlState with localLogoDataUri := "data:image/png;base64,L" }
          with template := "Invoice" }
      = qrPart (fun _ _ => some "data:image/png;base64,Q")
        { exUrlState with localLogoDataUri := "data:image/png;base64,L" }
    ∧ (handleGenerate "data:image/png;base64,D" (fun _ => none)
        (fun _ _ => some "data:image/png;base64,Q") 2026
        { { exUrlState with localLogoDataUri := "data:image/png;base64,L" }
          with template := "Invoice" }).1.html
      = render (emailSegments "Invoice" "data:image/png;base64,Q"
          (resolvedLogo "data:image/png;base64,D" (fun _ => none)
            { exUrlState with localLogoDataUri := "data:image/png;base64,L" }) 2026)
    ∧ (handleGenerate "data:image/png;base64,D" (fun _ => none)
        (fun _ _ => some "data:image/png;base64,Q") 2026
        { exUrlState with localLogoDataUri := "data:image/png;base64,L" }).1.html
      = render (emailSegments
          ({ exUrlState with localLogoDataUri := "data:image/png;base64,L" }
            : AppState).template
          "data:image/png;base64,Q"
          (resolvedLogo "data:image/png;base64,D" (fun _ => none)
            { exUrlState with localLogoDataUri := "data:image/png;base64,L" }) 2026)
    ∧ stripHeaderCta (emailSegments "Invoice" "data:image/png;base64,Q"
          (resolvedLogo "data:image/png;base64,D" (fun _ => none)
            { exUrlState with localLogoDataUri := "data:image/png;base64,L" }) 2026)
        = stripHeaderCta (emailSegments
            ({ exUrlState with localLogoDataUri := "data:image/png;base64,L" }
              : AppState).template
            "data:image/png;base64,Q"
            (resolvedLogo "data:image/png;base64,D" (fun _ => none)
              { exUrlState with localLogoDataUri := "data:image/png;base64,L" }) 2026) :=
  c5_template_change_frame "data:image/png;base64,D" (fun _ => none)
    (fun _ _ => some "data:image/png;base64,Q") 2026
    { exUrlState with localLogoDataUri := "data:image/png;base64,L" }
    "Invoice" "data:image/png;base64,Q" (by decide) rfl (by decide)

/-! ### Claim C6 -/

/-- A conditional between two non-`$` characters is not `$`. -/
theorem bne_dollar_ite (c : Prop) [Decidable c] (a b : Char)
    (ha : (a != '$') = true) (hb : (b != '$') = true) :
    ((if c then a else b) != '$') = true := by
  by_cases h : c
  · rw [if_pos h]; exact ha
  · rw [if_neg h]; exact hb

/-- `Nat.digitChar` never yields `$`. -/
theorem digitChar_ne_dollar (m : Nat) : (Nat.digitChar m != '$') = true := by
  unfold Nat.digitChar
  repeat refine bne_dollar_ite _ _ _ (by decide) ?_
  decide

/-- `Nat.toDigitsCore` only adds digit characters, so it preserves
dollar-freeness of the accumulator. -/
theorem toDigitsCore_all_ne_dollar :
    ∀ (fuel n : Nat) (ds : List Char),
      ds.all (fun c => c != '$') = true →
      (Nat.toDigitsCore 10 fuel n ds).all (fun c => c != '$') = true := by
  intro fuel
  induction fuel with
  | zero =>
      intro n ds h
      simpa [Nat.toDigitsCore] using h
  | succ fuel ih =>
      intro n ds h
      unfold Nat.toDigitsCore
      dsimp only
      split
      · simp [digitChar_ne_dollar, h]
      · exact ih _ _ (by simp [digitChar_ne_dollar, h])

/-- The decimal rendering of the year contains no `$`. -/
theorem noDollar_natRepr (n : Nat) : noDollar (Nat.repr n) = true := by
  show (Nat.toDigits 10 n).all (fun c => c != '$') = true
  exact toDigitsCore_all_ne_dollar (n + 1) n [] rfl

/-- `noDollar` distributes over string append. -/
theorem noDollar_append (a b : String) :
    noDollar (a ++ b) = (noDollar a && noDollar b) := by
  simp [noDollar, String.data_append, List.all_append]

/-- A rendered segment list is dollar-free when each segment is. -/
theorem noDollar_render (segs : List Seg)
    (h : ∀ sg ∈ segs, noDollar (renderSeg sg) = true) :
    noDollar (render segs) = true := by
  induction segs with
  | nil => rfl
  | cons sg rest ih =>
      have h1 := h sg (List.mem_cons_self sg rest)
      have h2 := ih (fun x hx => h x (List.mem_cons_of_mem sg hx))
      show noDollar (renderSeg sg ++ render rest) = true
      rw [noDollar_append, h1, h2]
      rfl

/-- Neither text of any template config contains `$`. -/
theorem configFor_noDollar (t : String) :
    noDollar (configFor t).header = true ∧ noDollar (configFor t).cta = true := by
  unfold configFor templateConfig
  by_cases h1 : t = "Document"
  · rw [if_pos h1]; exact ⟨by decide, by decide⟩
  rw [if_neg h1]
  by_cases h2 : t = "Contract"
  · rw [if_pos h2]; exact ⟨by decide, by decide⟩
  rw [if_neg h2]
  by_cases h3 : t = "Invoice"
  · rw [if_pos h3]; exact ⟨by decide, by decide⟩
  rw [if_neg h3]
  by_cases h4 : t = "Statement"
  · rw [if_pos h4]; exact ⟨by decide, by decide⟩
  rw [if_neg h4]
  by_cases h5 : t = "Payment"
  · rw [if_pos h5]; exact ⟨by decide, by decide⟩
  rw [if_neg h5]
  by_cases h6 : t ∈ protoKeys
  · rw [if_pos h6]; exact ⟨by decide, by decide⟩
  rw [if_neg h6]
  exact ⟨by decide, by decide⟩

set_option maxRecDepth 8192 in
theorem noDollar_tplSeg0 : noDollar tplSeg0 = true := by decide

set_option maxRecDepth 8192 in
theorem noDollar_tplSeg1 : noDollar tplSeg1 = true := by decide

set_option maxRecDepth 8192 in
theorem noDollar_tplSeg2 : noDollar tplSeg2 = true := by decide

set_option maxRecDepth 8192 in
theorem noDollar_tplSeg3 : noDollar tplSeg3 = true := by decide

set_option maxRecDepth 8192 in
theorem noDollar_tplSeg4 : noDollar tplSeg4 = true := by decide

set_option maxRecDepth 8192 in
theorem noDollar_tplSeg5 : noDollar tplSeg5 = true := by decide

set_option maxRecDepth 8192 in
theorem noDollar_tplSeg6 : noDollar tplSeg6 = true := by decide

set_option maxRecDepth 8192 in
theorem noDollar_logoRowPre : noDollar logoRowPre = true := by decide

set_option maxRecDepth 8192 in
theorem noDollar_logoRowPost : noDollar logoRowPost = true := by decide

/-- With a truthy logo the segment list is the 15-element list with the
logo row. -/
theorem emailSegments_truthy (t qr : String) (lo : Option String) (y : Nat)
    (hst : strTruthy lo = true) :
    emailSegments t qr lo y
      = [Seg.lit tplSeg0, Seg.headerText (configFor t).header, Seg.lit tplSeg1,
         Seg.lit logoRowPre, Seg.logoImg (lo.getD ""), Seg.lit logoRowPost,
         Seg.lit tplSeg2, Seg.headerText (configFor t).header, Seg.lit tplSeg3,
         Seg.qrImg qr, Seg.lit tplSeg4, Seg.ctaText (configFor t).cta,
         Seg.lit tplSeg5, Seg.yearText (Nat.repr y), Seg.lit tplSeg6] := by
  unfold emailSegments logoRowSegs
  rw [if_pos hst]
  rfl

/-- With a falsy logo the segment list is the 12-element list without
the logo row. -/
theorem emailSegments_falsy (t qr : String) (lo : Option String) (y : Nat)
    (hst : strTruthy lo = false) :
    emailSegments t qr lo y
      = [Seg.lit tplSeg0, Seg.headerText (configFor t).header, Seg.lit tplSeg1,
         Seg.lit tplSeg2, Seg.headerText (configFor t).header, Seg.lit tplSeg3,
         Seg.qrImg qr, Seg.lit tplSeg4, Seg.ctaText (configFor t).cta,
         Seg.lit tplSeg5, Seg.yearText (Nat.repr y), Seg.lit tplSeg6] := by
  unfold emailSegments logoRowSegs
  rw [if_neg (by simp [hst])]
  rfl

/-- The rendered document contains exactly one QR image segment. -/
theorem emailSegments_one_qrImg (t qr : String) (lo : Option String) (y : Nat) :
    ((emailSegments t qr lo y).countP fun sg => segIsQrImg sg) = 1 := by
  cases hst : strTruthy lo with
  | true =>
      rw [emailSegments_truthy t qr lo y hst]
      simp [List.countP_cons, segIsQrImg]
  | false =>
      rw [emailSegments_falsy t qr lo y hst]
      simp [List.countP_cons, segIsQrImg]

/-- Every embedded image of the document is inline `data:` content,
provided the QR data URI and the logo (when present) are. -/
theorem emailSegments_imgData (t qr : String) (lo : Option String) (y : Nat)
    (hqr : isDataUriSrc qr = true)
    (hlo : lo.all (fun l => isDataUriSrc l) = true) :
    (emailSegments t qr lo y).all
      (fun sg => (segImageSrc sg).all (fun src => isDataUriSrc src)) = true := by
  cases hst : strTruthy lo with
  | true =>
      rw [emailSegments_truthy t qr lo y hst]
      cases lo with
      | none => exact absurd hst (by decide)
      | some l =>
          simp only [Option.all] at hlo
          simp [segImageSrc, Option.all, hqr, hlo]
  | false =>
      rw [emailSegments_falsy t qr lo y hst]
      simp [segImageSrc, Option.all, hqr]

/-- Every segment of the document renders to a dollar-free string,
provided the QR data URI and the logo (when present) are dollar-free. -/
theorem emailSegments_noDollar (t qr : String) (lo : Option String) (y : Nat)
    (hqr : noDollar qr = true)
    (hlo : lo.all (fun l => noDollar l) = true) :
    (emailSegments t qr lo y).all (fun sg => noDollar (renderSeg sg)) = true := by
  have hcfg := configFor_noDollar t
  cases hst : strTruthy lo with
  | true =>
      rw [emailSegments_truthy t qr lo y hst]
      cases lo with
      | none => exact absurd hst (by decide)
      | some l =>
          simp only [Option.all] at hlo
          simp [renderSeg, noDollar_tplSeg0, noDollar_tplSeg1, noDollar_tplSeg2,
            noDollar_tplSeg3, noDollar_tplSeg4, noDollar_tplSeg5, noDollar_tplSeg6,
            noDollar_logoRowPre, noDollar_logoRowPost, hcfg.1, hcfg.2, hqr, hlo,
            noDollar_natRepr]
  | false =>
      rw [emailSegments_falsy t qr lo y hst]
      simp [renderSeg, noDollar_tplSeg0, noDollar_tplSeg1, noDollar_tplSeg2,
        noDollar_tplSeg3, noDollar_tplSeg4, noDollar_tplSeg5, noDollar_tplSeg6,
        hcfg.1, hcfg.2, hqr, noDollar_natRepr]

/-- C6: for a non-empty URL within encoder capacity (the encoder
succeeds), generation renders the document from the segment list; that
list contains exactly one embedded QR image; every embedded image `src`
is inline `data:` content (no external references), given that the
encoder output and any resolved logo are data URIs; and the rendered
string contains no `$` character, hence no unresolved `$`-brace
template placeholder. -/
theorem c6_document_well_formed (d : String) (f : String → Option String)
    (q : String → QrOptions → Option String) (y : Nat) (s : AppState)
    (qr : String) (hu : ¬ s.url = "") (hq : q s.url qrOptions = some qr)
    (hqrData : isDataUriSrc qr = true) (hqrNd : noDollar qr = true)
    (hlo : (resolvedLogo d f s).all
        (fun l => isDataUriSrc l && noDollar l) = true) :
    (handleGenerate d f q y s).1.html
      = render (emailSegments s.template qr (resolvedLogo d f s) y)
    ∧ ((emailSegments s.template qr (resolvedLogo d f s) y).countP
        fun sg => segIsQrImg sg) = 1
    ∧ (∀ sg ∈ emailSegments s.template qr (resolvedLogo d f s) y,
        ∀ src, segImageSrc sg = some src → isDataUriSrc src = true)
    ∧ noDollar ((handleGenerate d f q y s).1.html) = true := by
  have hhtml : (handleGenerate d f q y s).1.html
      = render (emailSegments s.template qr (resolvedLogo d f s) y) := by
    rw [handleGenerate_success d f q y s qr hu hq]
    rfl
  have hloImg : (resolvedLogo d f s).all (fun l => isDataUriSrc l) = true := by
    cases hr : resolvedLogo d f s with
    | none => rfl
    | some l =>
        rw [hr] at hlo
        simp only [Option.all, Bool.and_eq_true] at hlo
        simpa [Option.all] using hlo.1
  have hloNd : (resolvedLogo d f s).all (fun l => noDollar l) = true := by
    cases hr : resolvedLogo d f s with
    | none => rfl
    | some l =>
        rw [hr] at hlo
        simp only [Option.all, Bool.and_eq_true] at hlo
        simpa [Option.all] using hlo.2
  refine ⟨hhtml, emailSegments_one_qrImg _ _ _ _, ?_, ?_⟩
  · intro sg hm src hsrc
    have h1 := List.all_eq_true.mp
      (emailSegments_imgData s.template qr (resolvedLogo d f s) y hqrData hloImg)
      sg hm
    rw [hsrc] at h1
    simpa [Option.all] using h1
  · rw [hhtml]
    exact noDollar_render _ (List.all_eq_true.mp
      (emailSegments_noDollar s.template qr (resolvedLogo d f s) y hqrNd hloNd))

/-- Witness for C6: a concrete URL, a concrete data-URI encoder output
and the default logo. -/
theorem c6_witness :
    (handleGenerate "data:image/png;base64,D" (fun _ => none)
        (fun _ _ => some "data:image/png;base64,Q") 2026 exUrlState).1.html
      = render (emailSegments exUrlState.template "data:image/png;base64,Q"
          (resolvedLogo "data:image/png;base64,D" (fun _ => none) exUrlState) 2026)
    ∧ ((emailSegments exUrlState.template "data:image/png;base64,Q"
          (resolvedLogo "data:image/png;base64,D" (fun _ => none) exUrlState)
          2026).countP fun sg => segIsQrImg sg) = 1
    ∧ (∀ sg ∈ emailSegments exUrlState.template "data:image/png;base64,Q"
          (resolvedLogo "data:image/png;base64,D" (fun _ => none) exUrlState) 2026,
        ∀ src, segImageSrc sg = some src → isDataUriSrc src = true)
    ∧ noDollar ((handleGenerate "data:image/png;base64,D" (fun _ => none)
          (fun _ _ => some "data:image/png;base64,Q") 2026 exUrlState).1.html)
        = true :=
  c6_document_well_formed "data:image/png;base64,D" (fun _ => none)
    (fun _ _ => some "data:image/png;base64,Q") 2026 exUrlState
    "data:image/png;base64,Q" (by decide) rfl (by decide) (by decide) (by decide)

end QRKode
